import Mathlib

/-!
Verification development for a small invoicing application (`src/app.py`):
a shallow embedding of its invoice lifecycle and computation engine.

Money amounts, quantities and tax percentages are embedded as rational
numbers (the Python source uses floats; the spec's identities are stated up
to floating tolerance, so the idealised rational semantics settles them).
The SQLite store is embedded as explicit lists of rows with autoincrement
counters; the Python `sqlite3` connection discipline (an implicit
transaction opened at the first INSERT and made durable only by
`conn.commit()`) is reflected where it matters, in `save_facture`.
-/

namespace Facturation

/-! ## Decimal rendering (Python `str` / `f"{n:04d}"` formatting) -/

/-- One decimal digit character, `digitChar d` for `d < 10`. -/
def digitChar (d : Nat) : Char :=
  match d with
  | 0 => '0' | 1 => '1' | 2 => '2' | 3 => '3' | 4 => '4'
  | 5 => '5' | 6 => '6' | 7 => '7' | 8 => '8' | _ => '9'

/-- Fuel-indexed decimal rendering of a natural number, most significant
digit first (models Python's `str(n)` for `n < fuel`). -/
def natDigitsAux : Nat → Nat → List Char
  | 0, _ => []
  | fuel + 1, n =>
    if n < 10 then [digitChar n]
    else natDigitsAux fuel (n / 10) ++ [digitChar (n % 10)]

/-- Decimal digits of `n`, as produced by Python's `str(n)`. -/
def natDigits (n : Nat) : List Char := natDigitsAux (n + 1) n

/-- Python `str(n)` for a nonnegative integer. -/
def natStr (n : Nat) : String := ⟨natDigits n⟩

/-- Zero-padding to (at least) four characters, as Python's `%04d` / `:04d`
format specifier does. -/
def pad4 (s : List Char) : List Char := List.replicate (4 - s.length) '0' ++ s

/-- Python `f"{m:04d}"` for a nonnegative integer `m`. -/
def format04 (m : Nat) : String := ⟨pad4 (natDigits m)⟩

/-- One step of decimal decoding. -/
def decStep (acc : Nat) (c : Char) : Nat := acc * 10 + (c.toNat - 48)

/-- Decimal decoding of a digit string (specification-side inverse of the
renderer, used to state what the sequence part of an invoice number means). -/
def decDigits (l : List Char) : Nat := l.foldl decStep 0

/-! ## Invoice number generation (`generate_numero_facture`, app.py 267-278)

The function counts all invoices ever stored (`SELECT COUNT(*) FROM
factures`), takes the current calendar year, and formats
`f"F{year}-{count + 1:04d}"`.  If the store query raises, the `except`
branch returns the fixed fallback `f"F{datetime.now().year}-0001"`.
The store count and the current year are passed explicitly here; `dbError`
selects the `except` branch. -/
def generate_numero_facture (count year : Nat) (dbError : Bool) : String :=
  if dbError then "F" ++ natStr year ++ "-0001"
  else "F" ++ natStr year ++ "-" ++ format04 (count + 1)

/-! ## Data model (SQLite schema, app.py 74-136) -/

/-- A row of the `clients` table (app.py 89-103). -/
structure Client where
  id : Nat
  nom : String
  prenom : String
  email : String
  telephone : String
  adresse : String
  code_postal : String
  ville : String
  pays : String
  logo_path : String
deriving DecidableEq

/-- A row of the `factures` table (app.py 104-118). -/
structure Facture where
  id : Nat
  numero : String
  client_id : Nat
  date_emission : String
  total_ht : ℚ
  tva_pourcent : ℚ
  montant_tva : ℚ
  total_ttc : ℚ
  statut : String
  notes : String
deriving DecidableEq

/-- A row of the `lignes_facture` table (app.py 119-130). -/
structure Ligne where
  id : Nat
  facture_id : Nat
  ordre : Nat
  description : String
  type_facturation : String
  quantite : ℚ
  prix_unitaire : ℚ
  total : ℚ
deriving DecidableEq

/-- The committed state of the SQLite store, with the autoincrement
counters of the three tables the core logic touches. -/
structure DB where
  clients : List Client
  factures : List Facture
  lignes : List Ligne
  next_client_id : Nat
  next_facture_id : Nat
  next_ligne_id : Nat
deriving DecidableEq

/-! ## Draft line items (st.session_state.actions_facture) -/

/-- One entry of the in-memory draft `st.session_state.actions_facture`
(the dict appended at app.py 798-804). -/
structure Action where
  description : String
  type : String
  quantite : ℚ
  prix_unitaire : ℚ
  total : ℚ
deriving DecidableEq

/-- The "Ajouter la ligne" form handler (app.py 796-807): Python's
`if description and quantite > 0` appends the new entry (with
`total = quantite * prix_unitaire`) to the draft, otherwise it reports
`st.error` and leaves the draft alone.  The Bool is the success flag. -/
def addLine (draft : List Action) (description type_fact : String)
    (quantite prix_unitaire : ℚ) : Bool × List Action :=
  if description ≠ "" ∧ 0 < quantite then
    (true, draft ++ [⟨description, type_fact, quantite, prix_unitaire,
                      quantite * prix_unitaire⟩])
  else
    (false, draft)

/-! ## Invoice totals (app.py 822, 827, 828) -/

/-- `total_ht = sum(a['total'] for a in st.session_state.actions_facture)`. -/
def total_ht (actions : List Action) : ℚ := (actions.map (fun a => a.total)).sum

/-- `montant_tva = total_ht * (tva / 100)`. -/
def montant_tva (actions : List Action) (tva : ℚ) : ℚ :=
  total_ht actions * (tva / 100)

/-- `total_ttc = total_ht + montant_tva`. -/
def total_ttc (actions : List Action) (tva : ℚ) : ℚ :=
  total_ht actions + montant_tva actions tva

/-! ## Client CRUD (app.py 201-228, 255-265, 692-715) -/

/-- The field dict passed to `add_client` (the form always supplies every
key, so the `data.get(key, default)` defaults are not reachable). -/
structure ClientData where
  nom : String
  prenom : String
  email : String
  telephone : String
  adresse : String
  code_postal : String
  ville : String
  pays : String
  logo_path : String
deriving DecidableEq

/-- `add_client` (app.py 201-228): INSERTs the row unconditionally (the
function itself performs no validation) and returns `(True, lastrowid)`. -/
def add_client (db : DB) (data : ClientData) : (Bool × Nat) × DB :=
  let c : Client := ⟨db.next_client_id, data.nom, data.prenom, data.email,
    data.telephone, data.adresse, data.code_postal, data.ville, data.pays,
    data.logo_path⟩
  ((true, db.next_client_id),
   { db with clients := db.clients ++ [c],
             next_client_id := db.next_client_id + 1 })

/-- The "Ajouter" form handler of `page_clients` (app.py 692-715): the
only caller of `add_client`.  `if not nom: st.error(...)` rejects an empty
name before any insert; otherwise it calls `add_client` and reports the
new id.  Returns the reported id (`none` = rejected or failed). -/
def page_clients_submit (db : DB) (data : ClientData) : Option Nat × DB :=
  if data.nom = "" then (Option.none, db)
  else
    let r := add_client db data
    if r.1.1 then (some r.1.2, r.2) else (Option.none, r.2)

/-- `delete_client` (app.py 255-265): `DELETE FROM clients WHERE id=?`,
then commit.  Touches no other table. -/
def delete_client (db : DB) (client_id : Nat) : DB :=
  { db with clients := db.clients.filter (fun c => !(c.id == client_id)) }

/-! ## Reading an invoice back (`get_facture_details`, app.py 327-348) -/

/-- Insertion sort of line items by `ordre`, modelling `ORDER BY ordre`. -/
def insertByOrdre (l : Ligne) : List Ligne → List Ligne
  | [] => [l]
  | x :: xs => if l.ordre ≤ x.ordre then l :: x :: xs else x :: insertByOrdre l xs

/-- Sort of line items by `ordre`, modelling `ORDER BY ordre`. -/
def sortByOrdre : List Ligne → List Ligne
  | [] => []
  | x :: xs => insertByOrdre x (sortByOrdre xs)

/-- `get_facture_details` (app.py 327-348).  The header query is
`SELECT f.*, c.* FROM factures f JOIN clients c ON f.client_id = c.id
WHERE f.id = ?` — an INNER join, so with a dangling client reference the
header row comes back as `None`.  The second query reads the line items
(`WHERE facture_id = ? ORDER BY ordre`) with no join. -/
def get_facture_details (db : DB) (facture_id : Nat) :
    Option (Facture × Client) × List Ligne :=
  ((match db.factures.find? (fun f => f.id == facture_id) with
    | Option.none => Option.none
    | some f =>
      match db.clients.find? (fun c => c.id == f.client_id) with
      | Option.none => Option.none
      | some c => some (f, c)),
   sortByOrdre (db.lignes.filter (fun l => l.facture_id == facture_id)))

/-! ## Saving an invoice (`save_facture`, app.py 280-309) -/

/-- The line-item rows inserted by the loop
`for idx, action in enumerate(actions)` (app.py 291-303): row `idx` gets
`ordre = idx + 1` and copies the draft entry's fields verbatim.
`startId` is the autoincrement id of the first row, `ordre` the ordinal of
the first remaining action (1 at the top call). -/
def insertLignes (fid startId ordre : Nat) : List Action → List Ligne
  | [] => []
  | a :: rest =>
    ⟨startId, fid, ordre, a.description, a.type, a.quantite,
     a.prix_unitaire, a.total⟩ :: insertLignes fid (startId + 1) (ordre + 1) rest

/-- Where, if anywhere, `save_facture`'s try-block raises: `atLine k` is an
exception while executing the INSERT of line-item `k` (0-based), i.e.
after the invoice row and the first `k` line rows were written inside the
open transaction; `atCommit` is a failure at `conn.commit()` itself. -/
inductive SaveFault where
  | ok
  | atLine (k : Nat)
  | atCommit
deriving DecidableEq

/-- The store state as seen *inside* `save_facture`'s open transaction
after the invoice INSERT (app.py 286-289) and the first `k` line-item
INSERTs (app.py 291-303) have executed.  Python's `sqlite3` opens an
implicit transaction at the first INSERT; nothing of this state is durable
until `conn.commit()` (app.py 304) runs. -/
def save_facture_txn (db : DB) (client_id : Nat) (actions : List Action)
    (th tva mt tt : ℚ) (notes date_emission : String) (year : Nat)
    (k : Nat) : DB :=
  let numero := generate_numero_facture db.factures.length year false
  let f : Facture := ⟨db.next_facture_id, numero, client_id, date_emission,
    th, tva, mt, tt, "En attente", notes⟩
  { db with
    factures := db.factures ++ [f],
    lignes := db.lignes ++
      insertLignes db.next_facture_id db.next_ligne_id 1 (actions.take k),
    next_facture_id := db.next_facture_id + 1,
    next_ligne_id := db.next_ligne_id + min k actions.length }

/-- `save_facture` (app.py 280-309): generates the number from the current
committed invoice count, INSERTs the invoice row (the `statut` column
takes its schema default `'En attente'`, app.py 114), INSERTs one
`lignes_facture` row per draft entry with `ordre = idx + 1`, commits, and
returns the number.  Any exception lands in the `except` branch (app.py
307-309), which returns `None` *without ever calling `conn.commit()`*: the
implicit transaction opened at the first INSERT is rolled back when the
connection is discarded, so a failed call leaves the committed store
unchanged.  Returns the assigned number (or `none`) and the committed
store. -/
def save_facture (db : DB) (client_id : Nat) (actions : List Action)
    (th tva mt tt : ℚ) (notes date_emission : String) (year : Nat)
    (fault : SaveFault) : Option String × DB :=
  match fault with
  | SaveFault.ok =>
    (some (generate_numero_facture db.factures.length year false),
     save_facture_txn db client_id actions th tva mt tt notes date_emission
       year actions.length)
  | SaveFault.atLine _ => (Option.none, db)
  | SaveFault.atCommit => (Option.none, db)

/-! ## Status update (`update_facture_statut`, app.py 350-360) -/

/-- `update_facture_statut` (app.py 350-360):
`UPDATE factures SET statut=? WHERE id=?` — the function writes whatever
string it is handed, with no validation of the status value. -/
def update_facture_statut (db : DB) (facture_id : Nat) (statut : String) : DB :=
  { db with factures := db.factures.map (fun f =>
      if f.id == facture_id then { f with statut := statut } else f) }

/-- The three status strings the UI offers (app.py 114 and 937). -/
def statutOk (s : String) : Prop :=
  s = "En attente" ∨ s = "Payée" ∨ s = "Annulée"

/-- Every persisted invoice carries one of the three UI statuses. -/
def dbStatutsOk (db : DB) : Prop := ∀ f ∈ db.factures, statutOk f.statut

instance statutOk.instDecidable (s : String) : Decidable (statutOk s) := by
  unfold statutOk
  infer_instance

instance dbStatutsOk.instDecidable (db : DB) : Decidable (dbStatutsOk db) := by
  unfold dbStatutsOk
  exact List.decidableBAll _ _

/-! ## The "Enregistrer la facture" button (app.py 842-848) -/

/-- The commit handler of `page_facturation` (app.py 842-848): it calls
`save_facture` on the draft; `if numero:` (always a non-empty string when
save succeeds) it clears `st.session_state.actions_facture` to `[]`; on
failure (`None`) it touches neither the draft nor anything else.  Returns
(reported number, committed store, draft after the click). -/
def enregistrer_facture_click (db : DB) (draft : List Action)
    (client_id : Nat) (th tva mt tt : ℚ) (notes date_emission : String)
    (year : Nat) (fault : SaveFault) : Option String × DB × List Action :=
  match save_facture db client_id draft th tva mt tt notes date_emission
      year fault with
  | (some numero, db') => (some numero, db', [])
  | (Option.none, db') => (Option.none, db', draft)

/-! ## Lemmas on decimal rendering and decoding -/

theorem digitChar_toNat {d : Nat} (h : d < 10) : (digitChar d).toNat = 48 + d := by
  interval_cases d <;> rfl

theorem natDigitsAux_foldl :
    ∀ fuel n acc, n < fuel →
      (natDigitsAux fuel n).foldl decStep acc
        = acc * 10 ^ (natDigitsAux fuel n).length + n := by
  intro fuel
  induction fuel with
  | zero => intro n acc h; omega
  | succ f ih =>
    intro n acc h
    by_cases hn : n < 10
    · simp only [natDigitsAux, if_pos hn, List.foldl_cons, List.foldl_nil,
        List.length_cons, List.length_nil, decStep, digitChar_toNat hn]
      ring_nf
      omega
    · have hdiv : n / 10 < f := by omega
      have hmod : n % 10 < 10 := Nat.mod_lt _ (by omega)
      simp only [natDigitsAux, if_neg hn, List.foldl_append, List.foldl_cons,
        List.foldl_nil, List.length_append, List.length_cons, List.length_nil,
        ih (n / 10) acc hdiv, decStep, digitChar_toNat hmod, pow_succ]
      have h48 : 48 + n % 10 - 48 = n % 10 := by omega
      rw [h48]
      have : acc * (10 ^ (natDigitsAux f (n / 10)).length * 10)
          = acc * 10 ^ (natDigitsAux f (n / 10)).length * 10 := by ring
      rw [this]
      generalize acc * 10 ^ (natDigitsAux f (n / 10)).length = A
      omega

theorem decDigits_natDigits (n : Nat) : decDigits (natDigits n) = n := by
  have h := natDigitsAux_foldl (n + 1) n 0 (Nat.lt_succ_self n)
  simpa [decDigits, natDigits] using h

theorem decDigits_replicate_zero (k : Nat) (l : List Char) :
    decDigits (List.replicate k '0' ++ l) = decDigits l := by
  have : ∀ k, (List.replicate k '0').foldl decStep 0 = 0 := by
    intro k
    induction k with
    | zero => rfl
    | succ m ihm => simpa [List.replicate_succ, decStep] using ihm
  simp [decDigits, List.foldl_append, this]

theorem decDigits_pad4_natDigits (m : Nat) :
    decDigits (pad4 (natDigits m)) = m := by
  rw [pad4, decDigits_replicate_zero, decDigits_natDigits]

theorem format04_inj {a b : Nat} (h : format04 a = format04 b) : a = b := by
  have hdata : pad4 (natDigits a) = pad4 (natDigits b) := congrArg String.data h
  have := congrArg decDigits hdata
  rwa [decDigits_pad4_natDigits, decDigits_pad4_natDigits] at this

theorem pad4_length_ge (l : List Char) : 4 ≤ (pad4 l).length := by
  simp only [pad4, List.length_append, List.length_replicate]
  omega

theorem strData_append (s t : String) : (s ++ t).data = s.data ++ t.data := rfl

/-! ## C1: invoice number format -/

/-- C1.  With `n` invoices ever created and current year `y`,
`generate_numero_facture` returns `"F{y}-{n+1}"`: the string is
`"F" ++ str(y) ++ "-" ++ format04 (n+1)`, the sequence part is the decimal
rendering of `n + 1` (the global invoice count plus one) zero-padded to at
least 4 characters, and — the year-boundary consequence — as soon as at
least one invoice exists the result is never `"F{y}-0001"`, whatever the
year `y` is. -/
theorem generate_numero_from_global_count (n y : Nat) :
    generate_numero_facture n y false = "F" ++ natStr y ++ "-" ++ format04 (n + 1)
      ∧ decDigits (format04 (n + 1)).data = n + 1
      ∧ 4 ≤ (format04 (n + 1)).data.length
      ∧ (1 ≤ n →
          generate_numero_facture n y false ≠ "F" ++ natStr y ++ "-0001") := by
  refine ⟨by simp [generate_numero_facture], decDigits_pad4_natDigits (n + 1),
    pad4_length_ge _, ?_⟩
  intro h1 heq
  rw [show generate_numero_facture n y false
        = "F" ++ natStr y ++ "-" ++ format04 (n + 1) from
      by simp [generate_numero_facture]] at heq
  have hdata := congrArg String.data heq
  simp only [strData_append, List.append_assoc] at hdata
  have h2 : ("-").data ++ (format04 (n + 1)).data = ("-0001").data :=
    List.append_cancel_left (List.append_cancel_left hdata)
  have h3 : (format04 (n + 1)).data = ['0', '0', '0', '1'] := by
    have : ('-' :: (format04 (n + 1)).data : List Char)
        = '-' :: ['0', '0', '0', '1'] := h2
    exact List.cons_injective this
  have h4 := decDigits_pad4_natDigits (n + 1)
  rw [show (pad4 (natDigits (n + 1))) = (format04 (n + 1)).data from rfl, h3] at h4
  have h5 : decDigits ['0', '0', '0', '1'] = 1 := by decide
  omega

/-- Witness for C1 at `n = 3`, `y = 2025`. -/
theorem generate_numero_from_global_count_witness :
    1 ≤ 3 ∧ generate_numero_facture 3 2025 false ≠ "F" ++ natStr 2025 ++ "-0001" :=
  ⟨by decide, (generate_numero_from_global_count 3 2025).2.2.2 (by decide)⟩

/-! ## C10: fallback number on store error -/

/-- C10.  When the invoice-count query fails, `generate_numero_facture`
swallows the error and returns the fixed `"F{year}-0001"` whatever the
count `n` is; that string is exactly the number the generator issues when
the store holds zero invoices, so the fallback can duplicate the number of
the first invoice ever created in year `y`. -/
theorem generate_numero_fallback (n y : Nat) :
    generate_numero_facture n y true = "F" ++ natStr y ++ "-0001"
      ∧ generate_numero_facture n y true = generate_numero_facture 0 y false := by
  constructor
  · simp [generate_numero_facture]
  · show "F" ++ natStr y ++ "-0001" = "F" ++ natStr y ++ "-" ++ format04 1
    have h : ("-0001" : String) = "-" ++ format04 1 := rfl
    calc "F" ++ natStr y ++ "-0001" = "F" ++ natStr y ++ ("-" ++ format04 1) := by
            rw [← h]
      _ = "F" ++ natStr y ++ "-" ++ format04 1 := by
            rw [← String.append_assoc]

/-! ## C2: invoice totals -/

/-- C2.  For any draft whose entries carry `total = quantite *
prix_unitaire` (as every entry built by the add-line form does) and any
tax rate, the computed totals satisfy: `total_ht` is the sum of the line
products, `montant_tva = total_ht * (tva / 100)` and
`total_ttc = total_ht + montant_tva` (exactly, in the idealised rational
semantics of the Python floats). -/
theorem computeTotals_spec (actions : List Action) (tva : ℚ)
    (h : ∀ a ∈ actions, a.total = a.quantite * a.prix_unitaire) :
    total_ht actions = (actions.map (fun a => a.quantite * a.prix_unitaire)).sum
      ∧ montant_tva actions tva = total_ht actions * (tva / 100)
      ∧ total_ttc actions tva = total_ht actions + montant_tva actions tva := by
  refine ⟨?_, rfl, rfl⟩
  induction actions with
  | nil => rfl
  | cons a rest ih =>
    have ha := h a (by simp)
    have hrest : ∀ b ∈ rest, b.total = b.quantite * b.prix_unitaire :=
      fun b hb => h b (by simp [hb])
    simp only [total_ht, List.map_cons, List.sum_cons] at ih ⊢
    rw [ha, ih hrest]

/-- Witness for C2 on the spec's example draft
(Tiling: 10 × 25, Labor: 4 × 50) at 20% tax. -/
theorem computeTotals_spec_witness :
    total_ht [⟨"Tiling", "m²", 10, 25, 10 * 25⟩, ⟨"Labor", "hour", 4, 50, 4 * 50⟩]
        = (([⟨"Tiling", "m²", 10, 25, 10 * 25⟩,
             ⟨"Labor", "hour", 4, 50, 4 * 50⟩] : List Action).map
            (fun a => a.quantite * a.prix_unitaire)).sum
      ∧ montant_tva [⟨"Tiling", "m²", 10, 25, 10 * 25⟩,
            ⟨"Labor", "hour", 4, 50, 4 * 50⟩] 20
          = total_ht [⟨"Tiling", "m²", 10, 25, 10 * 25⟩,
              ⟨"Labor", "hour", 4, 50, 4 * 50⟩] * (20 / 100)
      ∧ total_ttc [⟨"Tiling", "m²", 10, 25, 10 * 25⟩,
            ⟨"Labor", "hour", 4, 50, 4 * 50⟩] 20
          = total_ht [⟨"Tiling", "m²", 10, 25, 10 * 25⟩,
              ⟨"Labor", "hour", 4, 50, 4 * 50⟩]
            + montant_tva [⟨"Tiling", "m²", 10, 25, 10 * 25⟩,
                ⟨"Labor", "hour", 4, 50, 4 * 50⟩] 20 :=
  computeTotals_spec _ 20 (by
    intro a ha
    simp only [List.mem_cons, List.not_mem_nil, or_false] at ha
    rcases ha with rfl | rfl <;> rfl)

/-! ## C3: adding a draft line -/

/-- C3.  The add-line form handler: with an empty description or a
non-positive quantity it fails and returns the draft unchanged; otherwise
it appends exactly the entry
`{description, type, quantite, prix_unitaire, total = quantite * prix_unitaire}`
at the end, keeping every earlier entry in place. -/
theorem addLine_spec (draft : List Action) (d t : String) (q p : ℚ) :
    ((d = "" ∨ q ≤ 0) → addLine draft d t q p = (false, draft))
      ∧ (d ≠ "" → 0 < q →
          addLine draft d t q p = (true, draft ++ [⟨d, t, q, p, q * p⟩])) := by
  constructor
  · intro h
    have hneg : ¬(d ≠ "" ∧ 0 < q) := by
      rintro ⟨hd, hq⟩
      rcases h with h | h
      · exact hd h
      · exact absurd hq (not_lt.mpr h)
    simp only [addLine, if_neg hneg]
  · intro hd hq
    simp only [addLine, if_pos (And.intro hd hq)]

/-- Witness for C3: an empty description is rejected without touching the
draft; a valid line is appended with its computed total. -/
theorem addLine_spec_witness :
    addLine [] "" "m²" 5 10 = (false, [])
      ∧ addLine [] "Tiling" "m²" 10 25 = (true, [] ++ [⟨"Tiling", "m²", 10, 25, 10 * 25⟩]) :=
  ⟨(addLine_spec [] "" "m²" 5 10).1 (Or.inl rfl),
   (addLine_spec [] "Tiling" "m²" 10 25).2 (by decide) (by decide)⟩

/-! ## C5: client creation validation -/

/-- C5.  The add-client flow (the form handler, the sole caller of
`add_client`): an empty name is rejected before any store write — the
clients table is untouched — while a non-empty name inserts exactly one
row and reports the new surrogate id.  (`add_client` itself, app.py
201-228, performs no validation; the check lives at app.py 693-694.) -/
theorem addClient_validation (db : DB) (data : ClientData) :
    (data.nom = "" → page_clients_submit db data = (Option.none, db))
      ∧ (data.nom ≠ "" →
          page_clients_submit db data
            = (some db.next_client_id,
               { db with
                 clients := db.clients ++
                   [⟨db.next_client_id, data.nom, data.prenom, data.email,
                     data.telephone, data.adresse, data.code_postal,
                     data.ville, data.pays, data.logo_path⟩],
                 next_client_id := db.next_client_id + 1 })) := by
  constructor
  · intro h
    simp [page_clients_submit, h]
  · intro h
    simp [page_clients_submit, h, add_client]

/-- Witness for C5 on an empty store: `{nom: ""}` is rejected with no row
inserted; `{nom: "Dupont"}` gets id 1 and lands in the table. -/
theorem addClient_validation_witness :
    page_clients_submit ⟨[], [], [], 1, 1, 1⟩
        ⟨"", "Jean", "", "", "", "", "", "France", ""⟩
      = (Option.none, ⟨[], [], [], 1, 1, 1⟩)
      ∧ page_clients_submit ⟨[], [], [], 1, 1, 1⟩
          ⟨"Dupont", "Jean", "", "", "", "", "", "France", ""⟩
        = (some 1,
           ⟨[⟨1, "Dupont", "Jean", "", "", "", "", "", "France", ""⟩],
            [], [], 2, 1, 1⟩) :=
  ⟨(addClient_validation ⟨[], [], [], 1, 1, 1⟩
      ⟨"", "Jean", "", "", "", "", "", "France", ""⟩).1 rfl,
   (addClient_validation ⟨[], [], [], 1, 1, 1⟩
      ⟨"Dupont", "Jean", "", "", "", "", "", "France", ""⟩).2 (by decide)⟩

/-! ## C8: the commit button and the draft -/

/-- C8.  The "Enregistrer la facture" handler delegates to `save_facture`
(it reports exactly the number `save_facture` returns and keeps exactly
the store `save_facture` leaves); on success the in-memory draft is
cleared to `[]`, and on failure both the draft and the committed store are
exactly as before the click, so the operator can retry. -/
theorem commit_draft_clearing (db : DB) (draft : List Action) (cid : Nat)
    (th tva mt tt : ℚ) (notes date : String) (year : Nat) (fault : SaveFault) :
    (enregistrer_facture_click db draft cid th tva mt tt notes date year fault).1
        = (save_facture db cid draft th tva mt tt notes date year fault).1
      ∧ (enregistrer_facture_click db draft cid th tva mt tt notes date year fault).2.1
          = (save_facture db cid draft th tva mt tt notes date year fault).2
      ∧ (∀ nu,
          (enregistrer_facture_click db draft cid th tva mt tt notes date year
              fault).1 = some nu →
          (enregistrer_facture_click db draft cid th tva mt tt notes date year
              fault).2.2 = [])
      ∧ ((enregistrer_facture_click db draft cid th tva mt tt notes date year
              fault).1 = Option.none →
          (enregistrer_facture_click db draft cid th tva mt tt notes date year
              fault).2.2 = draft
            ∧ (enregistrer_facture_click db draft cid th tva mt tt notes date
                year fault).2.1 = db) := by
  cases fault <;> simp [enregistrer_facture_click, save_facture]

/-- Witness for C8 on a one-line draft: a successful save clears the
draft; a save that fails at the first line insert leaves the draft and the
store untouched. -/
theorem commit_draft_clearing_witness :
    (enregistrer_facture_click ⟨[], [], [], 1, 1, 1⟩
        [⟨"Tiling", "m²", 10, 25, 250⟩] 1 250 20 50 300 "" "2025-01-02" 2025
        SaveFault.ok).2.2 = []
      ∧ (enregistrer_facture_click ⟨[], [], [], 1, 1, 1⟩
          [⟨"Tiling", "m²", 10, 25, 250⟩] 1 250 20 50 300 "" "2025-01-02" 2025
          (SaveFault.atLine 0)).2.2 = [⟨"Tiling", "m²", 10, 25, 250⟩]
      ∧ (enregistrer_facture_click ⟨[], [], [], 1, 1, 1⟩
          [⟨"Tiling", "m²", 10, 25, 250⟩] 1 250 20 50 300 "" "2025-01-02" 2025
          (SaveFault.atLine 0)).2.1 = ⟨[], [], [], 1, 1, 1⟩ :=
  ⟨(commit_draft_clearing ⟨[], [], [], 1, 1, 1⟩ [⟨"Tiling", "m²", 10, 25, 250⟩]
      1 250 20 50 300 "" "2025-01-02" 2025 SaveFault.ok).2.2.1
      (generate_numero_facture 0 2025 false) rfl,
   ((commit_draft_clearing ⟨[], [], [], 1, 1, 1⟩ [⟨"Tiling", "m²", 10, 25, 250⟩]
      1 250 20 50 300 "" "2025-01-02" 2025 (SaveFault.atLine 0)).2.2.2 rfl).1,
   ((commit_draft_clearing ⟨[], [], [], 1, 1, 1⟩ [⟨"Tiling", "m²", 10, 25, 250⟩]
      1 250 20 50 300 "" "2025-01-02" 2025 (SaveFault.atLine 0)).2.2.2 rfl).2⟩

/-! ## Lemmas on the inserted line-item rows -/

theorem insertLignes_mem_facture_id (fid : Nat) :
    ∀ (acts : List Action) (s o : Nat) (l : Ligne),
      l ∈ insertLignes fid s o acts → l.facture_id = fid := by
  intro acts
  induction acts with
  | nil => intro s o l h; simp [insertLignes] at h
  | cons a rest ih =>
    intro s o l h
    simp only [insertLignes, List.mem_cons] at h
    rcases h with rfl | h
    · rfl
    · exact ih _ _ _ h

theorem insertLignes_length (fid : Nat) :
    ∀ (acts : List Action) (s o : Nat),
      (insertLignes fid s o acts).length = acts.length := by
  intro acts
  induction acts with
  | nil => intro s o; rfl
  | cons a rest ih => intro s o; simp [insertLignes, ih]

theorem sortByOrdre_insertLignes (fid : Nat) :
    ∀ (acts : List Action) (s o : Nat),
      sortByOrdre (insertLignes fid s o acts) = insertLignes fid s o acts := by
  intro acts
  induction acts with
  | nil => intro s o; rfl
  | cons a rest ih =>
    intro s o
    show insertByOrdre _ (sortByOrdre (insertLignes fid (s + 1) (o + 1) rest)) = _
    rw [ih (s + 1) (o + 1)]
    cases rest with
    | nil => rfl
    | cons b rest' =>
      show (if o ≤ o + 1 then _ else _) = _
      rw [if_pos (Nat.le_succ o)]
      simp [insertLignes]

theorem insertLignes_getElem? (fid : Nat) :
    ∀ (acts : List Action) (s o i : Nat) (a : Action), acts[i]? = some a →
      (insertLignes fid s o acts)[i]?
        = some ⟨s + i, fid, o + i, a.description, a.type, a.quantite,
            a.prix_unitaire, a.total⟩ := by
  intro acts
  induction acts with
  | nil => intro s o i a h; simp at h
  | cons x rest ih =>
    intro s o i a h
    cases i with
    | zero =>
      simp only [List.getElem?_cons_zero, Option.some.injEq] at h
      subst h
      simp [insertLignes]
    | succ j =>
      simp only [List.getElem?_cons_succ] at h
      simp only [insertLignes, List.getElem?_cons_succ]
      rw [ih (s + 1) (o + 1) j a h]
      have h1 : s + 1 + j = s + (j + 1) := by omega
      have h2 : o + 1 + j = o + (j + 1) := by omega
      rw [h1, h2]

/-! ## C4: commit / read-back round trip -/

/-- C4.  Committing a draft of `N` line items with `save_facture` and
reading the invoice back with `get_facture_details` yields exactly `N`
line items, in the original insertion order: the item at 0-based position
`i` carries ordinal `i + 1` and the description, quantity, unit price and
total of the draft entry that was at position `i`.  The hypothesis says
the fresh autoincrement invoice id is not already referenced by a line
item, which the store's autoincrement discipline guarantees. -/
theorem save_then_read_roundtrip (db : DB) (cid : Nat) (actions : List Action)
    (th tva mt tt : ℚ) (notes date : String) (year : Nat)
    (hfresh : ∀ l ∈ db.lignes, l.facture_id ≠ db.next_facture_id) :
    ((get_facture_details
        (save_facture db cid actions th tva mt tt notes date year SaveFault.ok).2
        db.next_facture_id).2).length = actions.length
      ∧ ∀ i a, actions[i]? = some a →
          ∃ l, ((get_facture_details
              (save_facture db cid actions th tva mt tt notes date year
                SaveFault.ok).2 db.next_facture_id).2)[i]? = some l
            ∧ l.ordre = i + 1
            ∧ l.description = a.description
            ∧ l.quantite = a.quantite
            ∧ l.prix_unitaire = a.prix_unitaire
            ∧ l.total = a.total := by
  have hread :
      (get_facture_details
          (save_facture db cid actions th tva mt tt notes date year
            SaveFault.ok).2 db.next_facture_id).2
        = insertLignes db.next_facture_id db.next_ligne_id 1 actions := by
    show sortByOrdre
        (((save_facture db cid actions th tva mt tt notes date year
            SaveFault.ok).2).lignes.filter
          (fun l => l.facture_id == db.next_facture_id))
        = _
    have hlignes :
        ((save_facture db cid actions th tva mt tt notes date year
            SaveFault.ok).2).lignes
          = db.lignes ++
              insertLignes db.next_facture_id db.next_ligne_id 1 actions := by
      simp [save_facture, save_facture_txn, List.take_length]
    rw [hlignes, List.filter_append]
    have h1 : db.lignes.filter (fun l => l.facture_id == db.next_facture_id)
        = [] := by
      rw [List.filter_eq_nil_iff]
      intro l hl
      simpa using hfresh l hl
    have h2 : (insertLignes db.next_facture_id db.next_ligne_id 1
          actions).filter (fun l => l.facture_id == db.next_facture_id)
        = insertLignes db.next_facture_id db.next_ligne_id 1 actions := by
      rw [List.filter_eq_self]
      intro l hl
      simp [insertLignes_mem_facture_id _ _ _ _ _ hl]
    rw [h1, h2, List.nil_append, sortByOrdre_insertLignes]
  constructor
  · rw [hread, insertLignes_length]
  · intro i a hia
    refine ⟨⟨db.next_ligne_id + i, db.next_facture_id, 1 + i, a.description,
      a.type, a.quantite, a.prix_unitaire, a.total⟩, ?_,
      by show 1 + i = i + 1; omega, rfl, rfl, rfl, rfl⟩
    rw [hread]
    exact insertLignes_getElem? _ _ _ _ _ _ hia

/-- Witness for C4: committing the spec's two-line draft against an empty
store and reading invoice 1 back returns both lines, in order, with
ordinals 1 and 2 and the committed values. -/
theorem save_then_read_roundtrip_witness :
    ((get_facture_details
        (save_facture ⟨[], [], [], 1, 1, 1⟩ 1
          [⟨"Tiling", "m²", 10, 25, 250⟩, ⟨"Labor", "hour", 4, 50, 200⟩]
          450 20 90 540 "" "2025-01-02" 2025 SaveFault.ok).2 1).2).length = 2
      ∧ (∃ l, ((get_facture_details
            (save_facture ⟨[], [], [], 1, 1, 1⟩ 1
              [⟨"Tiling", "m²", 10, 25, 250⟩, ⟨"Labor", "hour", 4, 50, 200⟩]
              450 20 90 540 "" "2025-01-02" 2025 SaveFault.ok).2 1).2)[0]?
              = some l
          ∧ l.ordre = 1 ∧ l.description = "Tiling" ∧ l.quantite = 10
          ∧ l.prix_unitaire = 25 ∧ l.total = 250)
      ∧ (∃ l, ((get_facture_details
            (save_facture ⟨[], [], [], 1, 1, 1⟩ 1
              [⟨"Tiling", "m²", 10, 25, 250⟩, ⟨"Labor", "hour", 4, 50, 200⟩]
              450 20 90 540 "" "2025-01-02" 2025 SaveFault.ok).2 1).2)[1]?
              = some l
          ∧ l.ordre = 2 ∧ l.description = "Labor" ∧ l.quantite = 4
          ∧ l.prix_unitaire = 50 ∧ l.total = 200) :=
  ⟨(save_then_read_roundtrip ⟨[], [], [], 1, 1, 1⟩ 1
      [⟨"Tiling", "m²", 10, 25, 250⟩, ⟨"Labor", "hour", 4, 50, 200⟩]
      450 20 90 540 "" "2025-01-02" 2025 (by simp)).1,
   (save_then_read_roundtrip ⟨[], [], [], 1, 1, 1⟩ 1
      [⟨"Tiling", "m²", 10, 25, 250⟩, ⟨"Labor", "hour", 4, 50, 200⟩]
      450 20 90 540 "" "2025-01-02" 2025 (by simp)).2 0
      ⟨"Tiling", "m²", 10, 25, 250⟩ rfl,
   (save_then_read_roundtrip ⟨[], [], [], 1, 1, 1⟩ 1
      [⟨"Tiling", "m²", 10, 25, 250⟩, ⟨"Labor", "hour", 4, 50, 200⟩]
      450 20 90 540 "" "2025-01-02" 2025 (by simp)).2 1
      ⟨"Labor", "hour", 4, 50, 200⟩ rfl⟩

/-! ## C6: the status state machine -/

/-- C6 counterexample.  The claim says no operation — `setStatus` *with
any argument* included — can give an invoice a status outside
{`En attente`, `Payée`, `Annulée`}.  But `update_facture_statut` executes
`UPDATE factures SET statut=?` with whatever string it receives: handing
it `"Brouillon"` leaves the store with an invoice whose status is none of
the three. -/
theorem update_statut_arbitrary_counterexample :
    ¬ dbStatutsOk (update_facture_statut
        ⟨[], [⟨1, "F2025-0001", 1, "2025-01-02", 100, 20, 20, 120,
               "En attente", ""⟩], [], 1, 2, 1⟩ 1 "Brouillon") := by
  decide

/-- C6 amended.  Creation always stores status `'En attente'` (the column
default), and `update_facture_statut` writes exactly the string it is
passed; so the three-state invariant holds for every store whose updates
only ever use the three UI statuses (the `selectbox` at app.py 937
restricts the UI to them) — but it is not enforced by
`update_facture_statut` itself against arbitrary arguments. -/
theorem statut_invariant_restricted (db : DB) (fid : Nat) (s : String)
    (hdb : dbStatutsOk db) :
    (statutOk s → dbStatutsOk (update_facture_statut db fid s))
      ∧ ∀ cid actions (th tva mt tt : ℚ) notes date year fault,
          dbStatutsOk
            (save_facture db cid actions th tva mt tt notes date year
              fault).2 := by
  constructor
  · intro hs f hf
    simp only [update_facture_statut, List.mem_map] at hf
    obtain ⟨g, hg, rfl⟩ := hf
    split
    · exact hs
    · exact hdb g hg
  · intro cid actions th tva mt tt notes date year fault
    cases fault with
    | ok =>
      intro f hf
      simp only [save_facture, save_facture_txn, List.mem_append,
        List.mem_singleton] at hf
      rcases hf with hf | rfl
      · exact hdb f hf
      · exact Or.inl rfl
    | atLine k => exact hdb
    | atCommit => exact hdb

/-- Witness for the amended C6: updating to `"Payée"` keeps a well-formed
store inside the three-status set. -/
theorem statut_invariant_restricted_witness :
    statutOk "Payée"
      ∧ dbStatutsOk (update_facture_statut
          ⟨[], [⟨1, "F2025-0001", 1, "2025-01-02", 100, 20, 20, 120,
                 "En attente", ""⟩], [], 1, 2, 1⟩ 1 "Payée") :=
  ⟨by decide,
   (statut_invariant_restricted
      ⟨[], [⟨1, "F2025-0001", 1, "2025-01-02", 100, 20, 20, 120,
             "En attente", ""⟩], [], 1, 2, 1⟩ 1 "Payée"
      (by decide)).1 (by decide)⟩

/-! ## C7: deleting a client and the invoices referencing it -/

/-- C7 counterexample.  The claim says the invoice's line items *and
totals* remain retrievable after `delete_client`.  The rows do remain in
the store, but the only read path for the header — `get_facture_details`,
whose header query INNER JOINs `clients` — returns no header row once the
client is gone: before the deletion invoice 1's header (which carries the
totals) is returned, afterwards it is `None`. -/
theorem delete_client_totals_unretrievable :
    (get_facture_details
        ⟨[⟨1, "Dupont", "Jean", "", "", "", "", "", "France", ""⟩],
         [⟨1, "F2025-0001", 1, "2025-01-02", 450, 20, 90, 540,
           "En attente", ""⟩],
         [⟨1, 1, 1, "Tiling", "m²", 10, 25, 250⟩], 2, 2, 2⟩ 1).1 ≠ Option.none
      ∧ (get_facture_details
          (delete_client
            ⟨[⟨1, "Dupont", "Jean", "", "", "", "", "", "France", ""⟩],
             [⟨1, "F2025-0001", 1, "2025-01-02", 450, 20, 90, 540,
               "En attente", ""⟩],
             [⟨1, 1, 1, "Tiling", "m²", 10, 25, 250⟩], 2, 2, 2⟩ 1) 1).1
        = Option.none := by
  constructor
  · intro h
    simp [get_facture_details, List.find?] at h
  · rfl

/-- C7 amended.  `delete_client` only filters the clients table: every
invoice row and every line-item row is left exactly as it was (the client
reference dangles), and the line items of any invoice remain retrievable
through `get_facture_details` unchanged — but the header row, which
carries the totals, is no longer returned for invoices of the deleted
client (see the counterexample). -/
theorem delete_client_frame (db : DB) (cid : Nat) :
    (delete_client db cid).factures = db.factures
      ∧ (delete_client db cid).lignes = db.lignes
      ∧ ∀ fid, (get_facture_details (delete_client db cid) fid).2
          = (get_facture_details db fid).2 :=
  ⟨rfl, rfl, fun _ => rfl⟩

/-! ## C9: failure in the middle of `save_facture` -/

/-- C9 counterexample.  The claim says a failure between the invoice-row
INSERT and the line-item INSERTs leaves a persisted orphaned invoice
header.  In the code both INSERTs run on one connection whose implicit
transaction is only committed at app.py 304, after the loop; the `except`
path returns `None` without committing, so nothing persists: saving one
line against an empty store with a failure at the first line INSERT
leaves the invoice table empty — no orphaned header exists. -/
theorem save_orphan_counterexample :
    ((save_facture ⟨[], [], [], 1, 1, 1⟩ 1 [⟨"Tiling", "m²", 10, 25, 250⟩]
        250 20 50 300 "" "2025-01-02" 2025 (SaveFault.atLine 0)).2).factures = []
      ∧ (save_facture ⟨[], [], [], 1, 1, 1⟩ 1 [⟨"Tiling", "m²", 10, 25, 250⟩]
          250 20 50 300 "" "2025-01-02" 2025 (SaveFault.atLine 0)).1
        = Option.none :=
  ⟨rfl, rfl⟩

/-- C9 amended.  Inside the transaction, line items are indeed written
only after the parent invoice row: every in-transaction state
`save_facture_txn … k` (after `k` line INSERTs) already contains the new
invoice row.  But a failure at any line INSERT reaches the `except` branch
before `conn.commit()`, so the transaction is rolled back and the
committed store is returned unchanged: no orphaned invoice header is ever
persisted. -/
theorem save_facture_transactional (db : DB) (cid : Nat)
    (actions : List Action) (th tva mt tt : ℚ) (notes date : String)
    (year k : Nat) :
    (⟨db.next_facture_id,
      generate_numero_facture db.factures.length year false, cid, date,
      th, tva, mt, tt, "En attente", notes⟩ : Facture)
        ∈ (save_facture_txn db cid actions th tva mt tt notes date
            year k).factures
      ∧ save_facture db cid actions th tva mt tt notes date year
          (SaveFault.atLine k) = (Option.none, db) := by
  constructor
  · show _ ∈ db.factures ++ [_]
    exact List.mem_append_right _ (List.mem_singleton.mpr rfl)
  · rfl

end Facturation
